import Mathlib

/-!
Verification of the goal-progress allocation engine of the `fiscally` backend
(`backend/app/ai/context_manager.py` and `backend/app/api/v1/endpoints/goals.py`).

Shallow embedding conventions:
* Python floats are modelled as exact rationals (`ℚ`); `round(x, n)` is modelled
  as exact half-to-even rounding of `x * 10^n`.
* JSON/JSONB dictionaries holding a user's goals are modelled as structures with
  `Option` fields: `none` models both a missing key and an explicit `null`
  wherever the two are treated alike by the code (noted locally otherwise).
* The two database reads feeding the computation (financial profile, current
  month spending summary, PPP multiplier) are modelled as an input record
  `FinContext`; `datetime.now()` is modelled as an explicit `now : Date`
  parameter (the code calls it several times per request; we assume a single
  instant, and a time-of-day strictly after midnight).
-/

/-! ### Python-style numeric parsing (`ContextManager._parse_amount_value`) -/

/-- Value of a nonempty list of decimal digit characters, `none` when the list
is empty or contains a non-digit. Mirrors `int`-parsing of the digit runs that
`float()` accepts. -/
def digitsVal (cs : List Char) : Option ℕ :=
  if cs = [] then none
  else if cs.all Char.isDigit then
    some (cs.foldl (fun a c => a * 10 + (c.toNat - 48)) 0)
  else none

/-- Python `float(s)` on a string already filtered down to digits, `'.'` and
`'-'` (the only characters `_parse_amount_value` keeps): an optional single
leading minus sign, then either `digits`, `digits.`, `.digits` or
`digits.digits`. Anything else raises `ValueError`, modelled as `none`. -/
def parseCleanedFloat (cs : List Char) : Option ℚ :=
  let core : List Char → Option ℚ := fun ds =>
    match ds.splitOn '.' with
    | [ip] => (digitsVal ip).map (fun n => (n : ℚ))
    | [ip, fp] =>
      if ip = [] ∧ fp = [] then none
      else if (ip.all Char.isDigit) ∧ (fp.all Char.isDigit) then
        some ((ip.foldl (fun a c => a * 10 + (c.toNat - 48)) 0 : ℕ) +
          ((fp.foldl (fun a c => a * 10 + (c.toNat - 48)) 0 : ℕ) : ℚ) / (10 : ℚ) ^ fp.length)
      else none
    | _ => none
  match cs with
  | '-' :: rest => (core rest).map (fun q => -q)
  | _ => core cs

/-- Python `str.strip()` restricted to the ASCII whitespace relevant here. -/
def stripChars (cs : List Char) : List Char :=
  ((cs.dropWhile Char.isWhitespace).reverse.dropWhile Char.isWhitespace).reverse

/-- `ContextManager._parse_amount_value` on a string: strip, keep only digits
and `.`/`,`/`-`, drop the commas, then `float(...)`, with `0.0` on failure. -/
def parseAmountStr (s : String) : ℚ :=
  let kept := (stripChars s.toList).filter
    (fun c => c.isDigit || c = '.' || c = ',' || c = '-')
  let cleaned := kept.filter (fun c => c ≠ ',')
  (parseCleanedFloat cleaned).getD 0

/-- `_parse_amount_value` applied to a goal's raw `target_amount`. A missing
key is read as `"0"` by `calculate_goal_progress` and an explicit `None`
stringifies to `"None"` whose cleaned form fails to parse; both yield `0`. -/
def parseAmountValue (raw : Option String) : ℚ :=
  match raw with
  | none => 0
  | some s => parseAmountStr s

/-! ### Python `round` (banker's rounding) -/

/-- Python `round` to an integer: round half to even. -/
def pyRoundInt (q : ℚ) : ℤ :=
  let n := ⌊q⌋
  if q - n < 1 / 2 then n
  else if (1 : ℚ) / 2 < q - n then n + 1
  else if n % 2 = 0 then n else n + 1

/-- Python `round(q, k)` for `k ≥ 0` digits, on exact rationals. -/
def roundTo (k : ℕ) (q : ℚ) : ℚ :=
  (pyRoundInt (q * (10 : ℚ) ^ k) : ℚ) / (10 : ℚ) ^ k

/-- `round(x, 2)` as used for monetary outputs. -/
def round2 (q : ℚ) : ℚ := roundTo 2 q

/-- `round(x, 1)` as used for `budget_used_percentage`. -/
def round1 (q : ℚ) : ℚ := roundTo 1 q

/-! ### Dates (`datetime.strptime(..., "%Y-%m-%d")`, `relativedelta`) -/

/-- A calendar date; the model drops the time-of-day component of Python
`datetime` values (see `mkGoalEntry` for the one place it matters). -/
structure Date where
  year : ℕ
  month : ℕ
  day : ℕ
deriving DecidableEq, Repr

/-- Leap year test matching `calendar`/`datetime`. -/
def isLeapYear (y : ℕ) : Prop := y % 4 = 0 ∧ (y % 100 ≠ 0 ∨ y % 400 = 0)

instance (y : ℕ) : Decidable (isLeapYear y) := by unfold isLeapYear; infer_instance

/-- Number of days of month `m` of year `y`. -/
def daysInMonth (y m : ℕ) : ℕ :=
  if m = 2 then (if isLeapYear y then 29 else 28)
  else if m = 4 ∨ m = 6 ∨ m = 9 ∨ m = 11 then 30
  else 31

/-- `datetime.strptime(s, "%Y-%m-%d")`, `none` when it raises `ValueError`:
exactly three dash-separated all-digit fields, a 4-digit year `≥ 1`
(`datetime.MINYEAR`), a 1-2 digit month in `1..12`, and a 1-2 digit day valid
for that month. -/
def parseDate (s : String) : Option Date :=
  match s.toList.splitOn '-' with
  | [ys, ms, ds] =>
    match digitsVal ys, digitsVal ms, digitsVal ds with
    | some y, some m, some d =>
      if ys.length = 4 ∧ 1 ≤ y ∧
         (ms.length = 1 ∨ ms.length = 2) ∧ 1 ≤ m ∧ m ≤ 12 ∧
         (ds.length = 1 ∨ ds.length = 2) ∧ 1 ≤ d ∧ d ≤ daysInMonth y m then
        some ⟨y, m, d⟩
      else none
    | _, _, _ => none
  | _ => none

/-- Strict `<` on dates (ignoring time of day). -/
def dateLtB (a b : Date) : Bool :=
  decide (a.year < b.year ∨ (a.year = b.year ∧
    (a.month < b.month ∨ (a.month = b.month ∧ a.day < b.day))))

/-- `d + relativedelta(months=k)`: advance the month index, clamping the day
to the target month's length, exactly as `dateutil.relativedelta` does. -/
def addMonths (d : Date) (k : ℕ) : Date :=
  let total := d.year * 12 + (d.month - 1) + k
  let y := total / 12
  let m := total % 12 + 1
  ⟨y, m, min d.day (daysInMonth y m)⟩

/-- Decimal digits of `n`, left-padded with zeros to width `w`. -/
def padNum (w n : ℕ) : String :=
  let s := toString n
  String.mk (List.replicate (w - s.length) '0') ++ s

/-- `strftime("%Y-%m-%d")`. -/
def formatDate (d : Date) : String :=
  padNum 4 d.year ++ "-" ++ padNum 2 d.month ++ "-" ++ padNum 2 d.day

/-! ### Stored goal records and the goal store -/

/-- One entry of the user's `goals["active_goals"]` JSONB list. `none` models a
missing key (and, for `target_amount`/`target_date`/`priority`, also the
explicit `null` that `sync_goals` stores when the client omits the value; for
`priority` the code's `goal.get("priority", 999)` distinguishes the two — see
`priorityKey`). -/
structure Goal where
  id : String
  label : String
  target_amount : Option String
  target_date : Option String
  priority : Option ℤ
  synced_at : Option String
  current_amount : Option ℚ
  current_saved : Option ℚ
  icon : Option String
  color : Option String
deriving DecidableEq, Repr

/-- Sort key `goal.get("priority", 999)`: unset priority sorts last. Stored
goals always carry the `priority` key (`sync_goals` writes it, possibly as
`null`), so in the code the actual key of an unset priority is `(None, idx)`,
not `(999, idx)`: Python orders it against other `None` keys (falling back to
the original index, the same order as the constant 999 used here) but
comparing it against an integer priority raises `TypeError` inside
`sorted()`. This pure key is therefore faithful exactly for goal lists that
do not mix unset and set priorities; `mixedPriorities` and
`calculateGoalProgressE` below model the error path. -/
def priorityKey (g : Goal) : ℤ := g.priority.getD 999

/-- `goal.get("current_amount", goal.get("current_saved", 0))`. -/
def currentSavedOf (g : Goal) : ℚ :=
  match g.current_amount with
  | some v => v
  | none => g.current_saved.getD 0

/-- Python truthiness of an optional string (`if target_date_str:`). -/
def truthyStr (o : Option String) : Bool :=
  match o with
  | none => false
  | some s => !(s = "")

/-! ### Savings calculator (`calculate_monthly_savings`) -/

/-- The already-loaded inputs of `calculate_monthly_savings`: the resolved
financial profile (`load_financial_profile`), the profile PPP multiplier
(`get_profile_ppp_multiplier`) and the month spending summary
(`get_spending_summary(user_id, "month")`). -/
structure FinContext where
  monthly_salary : Option ℚ
  monthly_budget : Option ℚ
  ppp_multiplier : ℚ
  spending_total : ℚ
  transaction_count : ℕ
  by_category : List (String × ℚ)
deriving DecidableEq, Repr

/-- The dictionary returned by `calculate_monthly_savings`. -/
structure SavingsData where
  monthly_salary : ℚ
  monthly_budget : ℚ
  monthly_expenses : ℚ
  monthly_savings : ℚ
  budget_used_percentage : ℚ
  expected_savings : ℚ
  savings_vs_expected : ℚ
  ppp_multiplier : ℚ
  ppp_adjusted_budget : ℚ
  transaction_count : ℕ
  expenses_by_category : List (String × ℚ)
deriving DecidableEq, Repr

/-- `calculate_monthly_savings`: the savings pool is budget-based
(`max(0, salary - budget)` when a positive budget is set, the whole salary
otherwise); `x or 0` on the loaded fields is modelled by `Option.getD 0`. -/
def calculateMonthlySavings (f : FinContext) : SavingsData :=
  let monthly_salary := f.monthly_salary.getD 0
  let monthly_budget := f.monthly_budget.getD 0
  let ppp_adjusted_budget := if monthly_budget = 0 then 0 else monthly_budget * f.ppp_multiplier
  let monthly_expenses := f.spending_total
  let monthly_savings :=
    if 0 < monthly_budget then max 0 (monthly_salary - monthly_budget) else monthly_salary
  let budget_used_percentage :=
    if 0 < monthly_budget then monthly_expenses / monthly_budget * 100 else 0
  let expected_savings :=
    if 0 < monthly_budget then max 0 (monthly_salary - monthly_budget) else 0
  { monthly_salary := monthly_salary
    monthly_budget := monthly_budget
    monthly_expenses := monthly_expenses
    monthly_savings := monthly_savings
    budget_used_percentage := round1 budget_used_percentage
    expected_savings := expected_savings
    savings_vs_expected := monthly_savings - expected_savings
    ppp_multiplier := round2 f.ppp_multiplier
    ppp_adjusted_budget := round2 ppp_adjusted_budget
    transaction_count := f.transaction_count
    expenses_by_category := f.by_category }

/-! ### Sorting by priority (`sorted(goals, key=lambda g: (g.get("priority", 999), goals.index(g)))`) -/

/-- Total preorder underlying the priority sort. Python's `sorted` with key
`(priority, original_index)` over distinct indices is exactly a stable sort by
`priority`; `List.insertionSort` is that stable sort. -/
def goalLE (a b : Goal) : Prop := priorityKey a ≤ priorityKey b

instance : DecidableRel goalLE := fun a b => Int.decLe (priorityKey a) (priorityKey b)

instance : IsTotal Goal goalLE := ⟨fun a b => Int.le_total (priorityKey a) (priorityKey b)⟩

instance : IsTrans Goal goalLE := ⟨fun _ _ _ => Int.le_trans⟩

/-- The priority-ordered goal list processed by both allocation passes. -/
def sortGoals (goals : List Goal) : List Goal := List.insertionSort goalLE goals

/-! ### Pass 1: per-goal ideal needs (`calculate_goal_progress`, first loop) -/

/-- One element of the internal `goal_data` list (the dictionary's `goal_id`,
`label`, `current_amount` and `target_date_str` entries are recovered from the
embedded `goal`). -/
structure GoalData where
  goal : Goal
  target_amount : ℚ
  current_saved : ℚ
  amount_needed : ℚ
  ideal_monthly : ℚ
  months_to_deadline : ℤ
deriving DecidableEq, Repr

/-- First-pass body: parse the target amount, read the saved amount, and turn
the optional deadline into `months_to_deadline` (12 when absent/unparseable,
otherwise the calendar-month difference floored at 1). -/
def computeGoalData (now : Date) (g : Goal) : GoalData :=
  let target_amount := parseAmountValue g.target_amount
  let current_saved := currentSavedOf g
  let amount_needed := max 0 (target_amount - current_saved)
  let months_to_deadline : ℤ :=
    if truthyStr g.target_date then
      match parseDate (g.target_date.getD "") with
      | some d => max 1 (((d.year : ℤ) - now.year) * 12 + ((d.month : ℤ) - now.month))
      | none => 12
    else 12
  let ideal_monthly := if 0 < amount_needed then amount_needed / (months_to_deadline : ℚ) else 0
  { goal := g
    target_amount := target_amount
    current_saved := current_saved
    amount_needed := amount_needed
    ideal_monthly := ideal_monthly
    months_to_deadline := months_to_deadline }

/-! ### Pass 2: priority-first allocation (`calculate_goal_progress`, second loop) -/

/-- One element of the returned `goals` list (`goal_progress` dictionaries).
`ideal_monthly`/`allocated_monthly`/`monthly_contribution` carry the
2-decimal-rounded output values, `progress_percentage` the 1-decimal one. -/
structure GoalEntry where
  id : String
  label : String
  icon : Option String
  color : Option String
  priority : ℤ
  target_amount : ℚ
  target_date : Option String
  current : ℚ
  current_saved : ℚ
  amount_needed : ℚ
  ideal_monthly : ℚ
  allocated_monthly : ℚ
  monthly_contribution : ℚ
  is_underfunded : Bool
  deadline_at_risk : Bool
  progress_percentage : ℚ
  months_to_complete : Option ℤ
  projected_completion_date : Option String
  on_track : Bool
deriving DecidableEq, Repr

/-- Second-pass body for one goal, given its (exact) allocation. The
`projected_date > target_date` comparison is between a full `datetime.now()`
(time of day strictly after midnight) and a midnight `strptime` result, so on
equal calendar dates it is true; hence `deadline_at_risk` is "target date not
strictly after the projected date". -/
def mkGoalEntry (now : Date) (gd : GoalData) (alloc : ℚ) : GoalEntry :=
  let g := gd.goal
  let progress_percentage :=
    if 0 < gd.target_amount then min 100 (gd.current_saved / gd.target_amount * 100) else 0
  let proj :=
    if 0 < gd.amount_needed ∧ 0 < alloc then
      let k : ℤ := ⌈gd.amount_needed / alloc⌉
      let pdate := addMonths now k.toNat
      let risk :=
        if truthyStr g.target_date then
          match parseDate (g.target_date.getD "") with
          | some td => !(dateLtB pdate td)
          | none => false
        else false
      (some k, some (formatDate pdate), risk)
    else if 0 < gd.amount_needed then
      (none, none, truthyStr g.target_date)
    else (none, none, false)
  { id := g.id
    label := g.label
    icon := g.icon
    color := g.color
    priority := priorityKey g
    target_amount := gd.target_amount
    target_date := g.target_date
    current := gd.current_saved
    current_saved := gd.current_saved
    amount_needed := gd.amount_needed
    ideal_monthly := round2 gd.ideal_monthly
    allocated_monthly := round2 alloc
    monthly_contribution := round2 alloc
    is_underfunded := decide (alloc < gd.ideal_monthly ∧ 0 < gd.ideal_monthly)
    deadline_at_risk := proj.2.2
    progress_percentage := round1 progress_percentage
    months_to_complete := proj.1
    projected_completion_date := proj.2.1
    on_track := !proj.2.2 }

/-- The running-allocation loop: `allocated_monthly = min(remaining, ideal)`;
`remaining = max(0, remaining - allocated)`. Returns the exact (pre-rounding)
allocations. -/
def allocList : List ℚ → ℚ → List ℚ
  | [], _ => []
  | i :: rest, rem =>
    let a := min rem i
    a :: allocList rest (max 0 (rem - a))

/-- The value of `remaining_savings` after the loop. -/
def remAfter : List ℚ → ℚ → ℚ
  | [], rem => rem
  | i :: rest, rem => remAfter rest (max 0 (rem - min rem i))

/-- The second pass proper: entries plus the final `remaining_savings`. -/
def allocateGoals (now : Date) : List GoalData → ℚ → List GoalEntry × ℚ
  | [], rem => ([], rem)
  | gd :: rest, rem =>
    let a := min rem gd.ideal_monthly
    let rem2 := max 0 (rem - a)
    let p := allocateGoals now rest rem2
    (mkGoalEntry now gd a :: p.1, p.2)

/-! ### Result assembly (`calculate_goal_progress`) -/

/-- The `allocation_matrix` dictionary. In the no-goals early return the
`budget_overage` key is absent (`none`); in the main return it is present
(`0` when the budget is not exceeded). -/
structure AllocationMatrix where
  total_needed : ℚ
  total_available : ℚ
  shortfall : ℚ
  budget_exceeded : Bool
  budget_overage : Option ℚ
deriving DecidableEq, Repr

/-- The dictionary returned by `calculate_goal_progress`. The `**savings_data`
spread is kept as the nested `savings` field; `unallocated_savings` is `none`
exactly when the returned dictionary has no such key. -/
structure GoalProgressResult where
  savings : SavingsData
  allocation_matrix : AllocationMatrix
  goals : List GoalEntry
  total_goal_target : ℚ
  total_current_saved : ℚ
  unallocated_savings : Option ℚ
deriving DecidableEq, Repr

/-- `calculate_goal_progress` given the loaded financial inputs, the user's
stored goal list (`load_goals` preserves order and every field read here) and
the current date. The second loop's running `total_target`/`total_saved` sums
are written as list sums over the same sequence. -/
def calculateGoalProgress (f : FinContext) (goals : List Goal) (now : Date) :
    GoalProgressResult :=
  let sd := calculateMonthlySavings f
  let monthly_savings := sd.monthly_savings
  let monthly_budget := sd.monthly_budget
  let monthly_expenses := sd.monthly_expenses
  let budget_exceeded := decide (0 < monthly_budget) && decide (monthly_budget < monthly_expenses)
  if goals.isEmpty then
    { savings := sd
      allocation_matrix :=
        { total_needed := 0
          total_available := monthly_savings
          shortfall := 0
          budget_exceeded := budget_exceeded
          budget_overage := none }
      goals := []
      total_goal_target := 0
      total_current_saved := 0
      unallocated_savings := none }
  else
    let gds := (sortGoals goals).map (computeGoalData now)
    let total_ideal_needed := (gds.map GoalData.ideal_monthly).sum
    let shortfall := max 0 (total_ideal_needed - monthly_savings)
    let entries := (allocateGoals now gds monthly_savings).1
    let remaining_savings := (allocateGoals now gds monthly_savings).2
    { savings := sd
      allocation_matrix :=
        { total_needed := round2 total_ideal_needed
          total_available := round2 monthly_savings
          shortfall := round2 shortfall
          budget_exceeded := budget_exceeded
          budget_overage :=
            some (if budget_exceeded then round2 (monthly_expenses - monthly_budget) else 0) }
      goals := entries
      total_goal_target := (gds.map GoalData.target_amount).sum
      total_current_saved := (gds.map GoalData.current_saved).sum
      unallocated_savings := some (round2 remaining_savings) }

/-! ### Views of the computation used by the statements below -/

/-- The priority-ordered first-pass data. -/
def goalDataOf (goals : List Goal) (now : Date) : List GoalData :=
  (sortGoals goals).map (computeGoalData now)

/-- The per-goal ideal monthly contributions, in processing order. -/
def idealsOf (goals : List Goal) (now : Date) : List ℚ :=
  (goalDataOf goals now).map GoalData.ideal_monthly

/-- The priorities of the processed goals, in processing order. -/
def prioritiesOf (goals : List Goal) (now : Date) : List ℤ :=
  (goalDataOf goals now).map (fun gd => priorityKey gd.goal)

/-- The exact (pre-rounding) `allocated_monthly` values, in processing order. -/
def allocationsOf (f : FinContext) (goals : List Goal) (now : Date) : List ℚ :=
  allocList (idealsOf goals now) (calculateMonthlySavings f).monthly_savings

/-- The exact `remaining_savings` left after the final allocation pass. -/
def remainingAfter (f : FinContext) (goals : List Goal) (now : Date) : ℚ :=
  remAfter (idealsOf goals now) (calculateMonthlySavings f).monthly_savings

/-! ### The error path of the sort

`sync_goals` stores `priority: null` whenever the client omits the value, and
`calculate_goal_progress` sorts with key `(goal.get("priority", 999),
index)`: the default 999 never applies to synced goals, so an unset priority
yields the key `(None, index)`. Sorting a list holding both a `None` key and
an integer key must compare the two tuples, and `None < int` raises
`TypeError`, aborting the whole computation. A list whose priorities are all
set, or all unset, sorts fine (all-`None` keys tie and fall back to the
original index, which is what the stable sort by the constant 999 does). -/

/-- Goal lists on which the code's `sorted()` call raises `TypeError`: at
least one goal with an unset (`null`) priority next to at least one with an
integer priority. -/
def mixedPriorities (goals : List Goal) : Prop :=
  (∃ g ∈ goals, g.priority = none) ∧ (∃ g ∈ goals, g.priority ≠ none)

instance (goals : List Goal) : Decidable (mixedPriorities goals) := by
  unfold mixedPriorities
  infer_instance

/-- `calculate_goal_progress` as the caller sees it: an uncaught `TypeError`
from the mixed-priority sort escapes the computation; on every other input it
returns the pure result. -/
def calculateGoalProgressE (f : FinContext) (goals : List Goal) (now : Date) :
    Except String GoalProgressResult :=
  if mixedPriorities goals then
    Except.error "TypeError: unorderable sort keys NoneType and int"
  else Except.ok (calculateGoalProgress f goals now)

/-! ### Goal store operations (`sync_goals`, `save_goals`, `update_goal_saved_amount`, `save_to_goal`) -/

/-- One goal of a `GoalsSyncRequest` (`GoalDetail` in `endpoints/goals.py`). -/
structure GoalDetail where
  id : String
  label : String
  target_amount : Option String
  target_date : Option String
  priority : Option ℤ
deriving DecidableEq, Repr

/-- The list `sync_goals` builds and stores: each goal becomes exactly
`{id, label, target_amount, target_date, priority, synced_at}` — in the model,
every other `Goal` field is `none`. -/
def syncGoals (req : List GoalDetail) (ts : String) : List Goal :=
  req.map (fun g =>
    { id := g.id
      label := g.label
      target_amount := g.target_amount
      target_date := g.target_date
      priority := g.priority
      synced_at := some ts
      current_amount := none
      current_saved := none
      icon := none
      color := none })

/-- A user's `goals` JSONB column restricted to its `active_goals` list;
`none` models a user with no goals record. -/
def saveGoals (_st : Option (List Goal)) (req : List GoalDetail) (ts : String) :
    Option (List Goal) :=
  some (syncGoals req ts)

/-- The in-place update of `update_goal_saved_amount`'s loop: the first goal
whose `id` matches gets `current_saved = goal.get("current_saved", 0) + amount`
(note: `current_amount` is left untouched); the loop `break`s, so later
matches are not updated; no match leaves the list unchanged. -/
def updateFirstGoal (l : List Goal) (gid : String) (amt : ℚ) : List Goal :=
  match l with
  | [] => []
  | g :: rest =>
    if g.id = gid then
      { g with current_saved := some (g.current_saved.getD 0 + amt) } :: rest
    else g :: updateFirstGoal rest gid amt

/-- `update_goal_saved_amount`: a user without a goals record is left
untouched (`if user and user.goals:`), otherwise the first matching goal is
updated. -/
def updateGoalSavedAmount (st : Option (List Goal)) (gid : String) (amt : ℚ) :
    Option (List Goal) :=
  match st with
  | none => none
  | some l => some (updateFirstGoal l gid amt)

/-- Digits of a natural number grouped in threes with commas, built from the
reversed digit list (`p` is the 1-based position from the right). -/
def withCommas : ℕ → List Char → List Char
  | _, [] => []
  | p, c :: cs => (c :: (if p % 3 = 0 ∧ cs ≠ [] then [','] else [])) ++ withCommas (p + 1) cs

/-- Python `f"{amount:,.0f}"`: round half-to-even to an integer, then insert
thousands separators. -/
def formatComma0f (amount : ℚ) : String :=
  let n := pyRoundInt amount
  let ds := (withCommas 1 (toString n.natAbs).toList.reverse).reverse
  (if n < 0 then "-" else "") ++ String.mk ds

/-- The success message `save_to_goal` always returns. -/
def saveToGoalMessage (symbol : String) (amount : ℚ) : String :=
  "Added " ++ symbol ++ formatComma0f amount ++ " to goal"

/-- The `save-amount` endpoint: update the store, then return the message and
the echoed `goal_id` — the response does not depend on whether anything
matched. -/
def saveToGoal (st : Option (List Goal)) (gid : String) (amt : ℚ) (symbol : String) :
    Option (List Goal) × String × String :=
  (updateGoalSavedAmount st gid amt, saveToGoalMessage symbol amt, gid)

/-! ## Basic facts about the allocation fold -/

theorem allocList_length (l : List ℚ) (rem : ℚ) : (allocList l rem).length = l.length := by
  induction l generalizing rem with
  | nil => rfl
  | cons a t ih => simp [allocList, ih]

theorem allocList_sum_add_remAfter (l : List ℚ) (rem : ℚ) :
    (allocList l rem).sum + remAfter l rem = rem := by
  induction l generalizing rem with
  | nil => simp [allocList, remAfter]
  | cons a t ih =>
    have hle : min rem a ≤ rem := min_le_left _ _
    have hmax : max 0 (rem - min rem a) = rem - min rem a := max_eq_right (by linarith)
    have h2 := ih (max 0 (rem - min rem a))
    simp only [allocList, remAfter, List.sum_cons] at h2 ⊢
    rw [hmax] at h2 ⊢
    linarith

theorem remAfter_nonneg (l : List ℚ) (rem : ℚ) (h : 0 ≤ rem) : 0 ≤ remAfter l rem := by
  induction l generalizing rem with
  | nil => simpa [remAfter] using h
  | cons a t ih => simpa only [remAfter] using ih _ (le_max_left 0 _)

theorem allocList_sum_le (l : List ℚ) (rem : ℚ) (h : 0 ≤ rem) : (allocList l rem).sum ≤ rem := by
  have h1 := allocList_sum_add_remAfter l rem
  have h2 := remAfter_nonneg l rem h
  linarith

theorem allocList_getD_pos : ∀ (l : List ℚ) (rem : ℚ) (k : ℕ),
    (∀ x ∈ l, 0 ≤ x) → 0 < (allocList l rem).getD k 0 → 0 < rem
  | [], _, k, _, h => by simp [allocList] at h
  | a :: t, rem, 0, _, h => by
    simp only [allocList, List.getD_cons_zero] at h
    exact lt_of_lt_of_le h (min_le_left _ _)
  | a :: t, rem, k + 1, hnn, h => by
    simp only [allocList, List.getD_cons_succ] at h
    have ha : 0 ≤ a := hnn a (List.mem_cons_self a t)
    have h2 : 0 < max 0 (rem - min rem a) :=
      allocList_getD_pos t _ k (fun x hx => hnn x (List.mem_cons_of_mem a hx)) h
    have h3 : 0 < rem - min rem a := by
      by_contra hc
      push_neg at hc
      rw [max_eq_left hc] at h2
      exact lt_irrefl 0 h2
    rcases min_cases rem a with ⟨he, _⟩ | ⟨he, _⟩
    · rw [he] at h3; linarith
    · rw [he] at h3; linarith

theorem allocList_earlier_full : ∀ (l : List ℚ) (rem : ℚ) (i j : ℕ),
    (∀ x ∈ l, 0 ≤ x) → i < j → 0 < (allocList l rem).getD j 0 →
    (allocList l rem).getD i 0 = l.getD i 0
  | [], _, _, _, _, _, h => by simp [allocList] at h
  | a :: t, rem, 0, 0, _, hij, _ => absurd hij (lt_irrefl 0)
  | a :: t, rem, 0, j + 1, hnn, _, hj => by
    simp only [allocList, List.getD_cons_succ] at hj
    simp only [allocList, List.getD_cons_zero]
    have h2 : 0 < max 0 (rem - min rem a) :=
      allocList_getD_pos t _ j (fun x hx => hnn x (List.mem_cons_of_mem a hx)) hj
    have h3 : 0 < rem - min rem a := by
      by_contra hc
      push_neg at hc
      rw [max_eq_left hc] at h2
      exact lt_irrefl 0 h2
    rcases min_cases rem a with ⟨he, _⟩ | ⟨he, _⟩
    · rw [he] at h3; linarith
    · exact he
  | a :: t, rem, i + 1, j + 1, hnn, hij, hj => by
    simp only [allocList, List.getD_cons_succ] at hj ⊢
    exact allocList_earlier_full t _ i j (fun x hx => hnn x (List.mem_cons_of_mem a hx))
      (Nat.lt_of_succ_lt_succ hij) hj

/-! ## Projections of the first-pass record -/

theorem computeGoalData_goal (now : Date) (g : Goal) : (computeGoalData now g).goal = g := rfl

theorem computeGoalData_target (now : Date) (g : Goal) :
    (computeGoalData now g).target_amount = parseAmountValue g.target_amount := rfl

theorem computeGoalData_current (now : Date) (g : Goal) :
    (computeGoalData now g).current_saved = currentSavedOf g := rfl

theorem computeGoalData_amount (now : Date) (g : Goal) :
    (computeGoalData now g).amount_needed
      = max 0 (parseAmountValue g.target_amount - currentSavedOf g) := rfl

theorem computeGoalData_months (now : Date) (g : Goal) :
    (computeGoalData now g).months_to_deadline
      = (if truthyStr g.target_date then
          match parseDate (g.target_date.getD "") with
          | some d => max 1 (((d.year : ℤ) - now.year) * 12 + ((d.month : ℤ) - now.month))
          | none => 12
        else 12) := rfl

theorem computeGoalData_ideal (now : Date) (g : Goal) :
    (computeGoalData now g).ideal_monthly
      = (if 0 < (computeGoalData now g).amount_needed then
          (computeGoalData now g).amount_needed / ((computeGoalData now g).months_to_deadline : ℚ)
        else 0) := rfl

theorem months_to_deadline_pos (now : Date) (g : Goal) :
    1 ≤ (computeGoalData now g).months_to_deadline := by
  rw [computeGoalData_months]
  split
  · split
    · exact le_max_left _ _
    · norm_num
  · norm_num

theorem ideal_monthly_nonneg (now : Date) (g : Goal) :
    0 ≤ (computeGoalData now g).ideal_monthly := by
  rw [computeGoalData_ideal]
  split
  · apply div_nonneg
    · rw [computeGoalData_amount]; exact le_max_left 0 _
    · have h := months_to_deadline_pos now g
      have : (1 : ℚ) ≤ ((computeGoalData now g).months_to_deadline : ℚ) := by
        exact_mod_cast h
      linarith
  · exact le_refl 0

theorem ideal_monthly_eq_zero (now : Date) (g : Goal)
    (h : (computeGoalData now g).amount_needed = 0) :
    (computeGoalData now g).ideal_monthly = 0 := by
  rw [computeGoalData_ideal, h]
  simp

theorem idealsOf_nonneg (goals : List Goal) (now : Date) :
    ∀ x ∈ idealsOf goals now, 0 ≤ x := by
  intro x hx
  simp only [idealsOf, goalDataOf, List.map_map, List.mem_map] at hx
  obtain ⟨g, _, hg⟩ := hx
  rw [← hg]
  exact ideal_monthly_nonneg now g

/-! ## Pass-2 bridges: entries versus the exact allocation fold -/

theorem mkGoalEntry_allocated (now : Date) (gd : GoalData) (a : ℚ) :
    (mkGoalEntry now gd a).allocated_monthly = round2 a := rfl

theorem mkGoalEntry_amount (now : Date) (gd : GoalData) (a : ℚ) :
    (mkGoalEntry now gd a).amount_needed = gd.amount_needed := rfl

theorem mkGoalEntry_ideal (now : Date) (gd : GoalData) (a : ℚ) :
    (mkGoalEntry now gd a).ideal_monthly = round2 gd.ideal_monthly := rfl

theorem mkGoalEntry_current (now : Date) (gd : GoalData) (a : ℚ) :
    (mkGoalEntry now gd a).current_saved = gd.current_saved := rfl

theorem mkGoalEntry_cur (now : Date) (gd : GoalData) (a : ℚ) :
    (mkGoalEntry now gd a).current = gd.current_saved := rfl

theorem mkGoalEntry_priority (now : Date) (gd : GoalData) (a : ℚ) :
    (mkGoalEntry now gd a).priority = priorityKey gd.goal := rfl

theorem round2_zero : round2 0 = 0 := by
  have h : pyRoundInt 0 = 0 := by simp [pyRoundInt]
  simp [round2, roundTo, h]

/-! ## Evaluating and bounding the banker's rounding -/

theorem pyRoundInt_down_eval (q : ℚ) (n : ℤ) (h1 : (n : ℚ) ≤ q) (h2 : q < n + 1)
    (h3 : q - n < 1 / 2) : pyRoundInt q = n := by
  have hf : ⌊q⌋ = n := Int.floor_eq_iff.mpr ⟨h1, h2⟩
  simp only [pyRoundInt, hf]
  rw [if_pos h3]

theorem pyRoundInt_up_eval (q : ℚ) (n : ℤ) (h1 : (n : ℚ) ≤ q) (h2 : q < n + 1)
    (h3 : 1 / 2 < q - n) : pyRoundInt q = n + 1 := by
  have hf : ⌊q⌋ = n := Int.floor_eq_iff.mpr ⟨h1, h2⟩
  simp only [pyRoundInt, hf]
  rw [if_neg (by linarith), if_pos h3]

theorem round2_eval (q : ℚ) (n : ℤ) (h : pyRoundInt (q * (10 : ℚ) ^ 2) = n) :
    round2 q = (n : ℚ) / 100 := by
  rw [round2, roundTo, h]
  norm_num

theorem pyRoundInt_le (q : ℚ) : (pyRoundInt q : ℚ) ≤ q + 1 / 2 := by
  have h1 : (⌊q⌋ : ℚ) ≤ q := Int.floor_le q
  have h2 : q < ⌊q⌋ + 1 := Int.lt_floor_add_one q
  simp only [pyRoundInt]
  split_ifs with ha hb hc
  · linarith
  · push_cast
    linarith
  · linarith
  · push_cast
    linarith

theorem round2_le_add (q : ℚ) : round2 q ≤ q + 1 / 200 := by
  rw [round2, roundTo]
  have h := pyRoundInt_le (q * (10 : ℚ) ^ 2)
  have h2 : (0 : ℚ) < (10 : ℚ) ^ 2 := by norm_num
  rw [div_le_iff₀ h2]
  have h3 : (q + 1 / 200) * (10 : ℚ) ^ 2 = q * (10 : ℚ) ^ 2 + 1 / 2 := by ring
  rw [h3]
  exact h

theorem sum_map_round2_le (l : List ℚ) :
    (l.map round2).sum ≤ l.sum + (l.length : ℚ) / 200 := by
  induction l with
  | nil => simp
  | cons a t ih =>
    simp only [List.map_cons, List.sum_cons, List.length_cons]
    have ha := round2_le_add a
    push_cast
    linarith

theorem allocList_sum_le_max (l : List ℚ) (rem : ℚ) :
    (allocList l rem).sum ≤ max 0 rem := by
  cases l with
  | nil =>
    simp only [allocList, List.sum_nil]
    exact le_max_left 0 rem
  | cons a t =>
    have hcons := allocList_sum_add_remAfter (a :: t) rem
    have hr : 0 ≤ remAfter (a :: t) rem := by
      show 0 ≤ remAfter t (max 0 (rem - min rem a))
      exact remAfter_nonneg _ _ (le_max_left 0 _)
    have hle : (allocList (a :: t) rem).sum ≤ rem := by linarith
    exact le_trans hle (le_max_right 0 rem)

theorem allocationsOf_length (f : FinContext) (goals : List Goal) (now : Date) :
    (allocationsOf f goals now).length = goals.length := by
  rw [allocationsOf, allocList_length]
  simp [idealsOf, goalDataOf, sortGoals, List.length_insertionSort]

theorem allocateGoals_fst_map (now : Date) : ∀ (gds : List GoalData) (rem : ℚ),
    (allocateGoals now gds rem).1.map GoalEntry.allocated_monthly
      = (allocList (gds.map GoalData.ideal_monthly) rem).map round2
  | [], _ => rfl
  | gd :: rest, rem => by
    simp only [allocateGoals, allocList, List.map_cons]
    exact congrArg (round2 (min rem gd.ideal_monthly) :: ·) (allocateGoals_fst_map now rest _)

theorem allocateGoals_snd (now : Date) : ∀ (gds : List GoalData) (rem : ℚ),
    (allocateGoals now gds rem).2 = remAfter (gds.map GoalData.ideal_monthly) rem
  | [], _ => rfl
  | gd :: rest, rem => by
    simp only [allocateGoals, remAfter, List.map_cons]
    exact allocateGoals_snd now rest _

/-! ## Result bridges -/

theorem calcGP_goals_eq (f : FinContext) (goals : List Goal) (now : Date) (h : goals ≠ []) :
    (calculateGoalProgress f goals now).goals
      = (allocateGoals now (goalDataOf goals now) (calculateMonthlySavings f).monthly_savings).1 := by
  have hne : goals.isEmpty = false := by
    cases goals with
    | nil => exact absurd rfl h
    | cons a l => rfl
  simp only [calculateGoalProgress, hne, Bool.false_eq_true, if_false]
  rfl

theorem calcGP_unalloc_eq (f : FinContext) (goals : List Goal) (now : Date) (h : goals ≠ []) :
    (calculateGoalProgress f goals now).unallocated_savings
      = some (round2 (remainingAfter f goals now)) := by
  have hne : goals.isEmpty = false := by
    cases goals with
    | nil => exact absurd rfl h
    | cons a l => rfl
  simp only [calculateGoalProgress, hne, Bool.false_eq_true, if_false]
  rw [allocateGoals_snd now]
  rfl

theorem calcGP_map_allocated (f : FinContext) (goals : List Goal) (now : Date) :
    (calculateGoalProgress f goals now).goals.map GoalEntry.allocated_monthly
      = (allocationsOf f goals now).map round2 := by
  cases goals with
  | nil => rfl
  | cons b tl =>
    rw [calcGP_goals_eq f (b :: tl) now (by simp), allocateGoals_fst_map]
    rfl

/-! ## Stable-sort insertion lemmas

Inserting one goal anywhere into the input list inserts it somewhere into the
sorted processing order and leaves the relative order of all other goals
unchanged. -/

theorem orderedInsert_eq_insertIdx (x : Goal) : ∀ (l : List Goal),
    ∃ m, m ≤ l.length ∧ List.orderedInsert goalLE x l = List.insertIdx m x l
  | [] => ⟨0, Nat.le_refl 0, rfl⟩
  | b :: t => by
    by_cases h : goalLE x b
    · exact ⟨0, Nat.zero_le _, by simp [List.orderedInsert, h, List.insertIdx_zero]⟩
    · obtain ⟨m, hm, he⟩ := orderedInsert_eq_insertIdx x t
      exact ⟨m + 1, Nat.succ_le_succ hm,
        by simp [List.orderedInsert, h, List.insertIdx_succ_cons, he]⟩

theorem orderedInsert_insertIdx (a g : Goal) : ∀ (L : List Goal) (m : ℕ),
    m ≤ L.length → List.Sorted goalLE (List.insertIdx m g L) →
    ∃ k, k ≤ (List.orderedInsert goalLE a L).length ∧
      List.orderedInsert goalLE a (List.insertIdx m g L)
        = List.insertIdx k g (List.orderedInsert goalLE a L)
  | [], 0, _, _ => by
    by_cases h : goalLE a g
    · exact ⟨1, by simp [List.orderedInsert], by simp [List.orderedInsert, h, List.insertIdx]⟩
    · exact ⟨0, Nat.zero_le _, by simp [List.orderedInsert, h, List.insertIdx]⟩
  | [], m + 1, hm, _ => absurd hm (by simp)
  | b :: L2, 0, _, hsort => by
    rw [List.insertIdx_zero] at hsort ⊢
    by_cases hag : goalLE a g
    · have hgb : goalLE g b := (List.sorted_cons.mp hsort).1 b (List.mem_cons_self b L2)
      have hab : goalLE a b := Trans.trans hag hgb
      refine ⟨1, by simp [List.orderedInsert, hab], ?_⟩
      simp [List.orderedInsert, hag, hab, List.insertIdx_succ_cons, List.insertIdx_zero]
    · refine ⟨0, Nat.zero_le _, ?_⟩
      simp [List.orderedInsert, hag, List.insertIdx_zero]
  | b :: L2, m + 1, hm, hsort => by
    rw [List.insertIdx_succ_cons] at hsort ⊢
    by_cases hab : goalLE a b
    · refine ⟨m + 2, ?_, ?_⟩
      · have : m ≤ L2.length := Nat.le_of_succ_le_succ hm
        simp only [List.orderedInsert, if_pos hab, List.length_cons]
        omega
      · simp [List.orderedInsert, hab, List.insertIdx_succ_cons]
    · have hsort2 : List.Sorted goalLE (List.insertIdx m g L2) := (List.sorted_cons.mp hsort).2
      obtain ⟨k, hk, he⟩ :=
        orderedInsert_insertIdx a g L2 m (Nat.le_of_succ_le_succ hm) hsort2
      refine ⟨k + 1, ?_, ?_⟩
      · simp only [List.orderedInsert, if_neg hab, List.length_cons]
        omega
      · simp [List.orderedInsert, hab, List.insertIdx_succ_cons, he]

theorem insertionSort_insertIdx (g : Goal) : ∀ (gs : List Goal) (n : ℕ), n ≤ gs.length →
    ∃ m, m ≤ (List.insertionSort goalLE gs).length ∧
      List.insertionSort goalLE (List.insertIdx n g gs)
        = List.insertIdx m g (List.insertionSort goalLE gs)
  | gs, 0, _ => by
    rw [List.insertIdx_zero]
    obtain ⟨m, hm, he⟩ := orderedInsert_eq_insertIdx g (List.insertionSort goalLE gs)
    exact ⟨m, hm, he⟩
  | [], n + 1, hn => absurd hn (by simp)
  | b :: tl, n + 1, hn => by
    rw [List.insertIdx_succ_cons]
    obtain ⟨m, hm, he⟩ := insertionSort_insertIdx g tl n (Nat.le_of_succ_le_succ hn)
    have hsorted : List.Sorted goalLE (List.insertIdx m g (List.insertionSort goalLE tl)) := by
      rw [← he]
      exact List.sorted_insertionSort goalLE _
    obtain ⟨k, hk, he2⟩ :=
      orderedInsert_insertIdx b g (List.insertionSort goalLE tl) m hm hsorted
    refine ⟨k, ?_, ?_⟩
    · calc k ≤ (List.orderedInsert goalLE b (List.insertionSort goalLE tl)).length := hk
        _ = (List.insertionSort goalLE (b :: tl)).length := rfl
    · show List.orderedInsert goalLE b (List.insertionSort goalLE (List.insertIdx n g tl)) = _
      rw [he, he2]
      rfl

theorem map_insertIdx_le {α β : Type} (f : α → β) (g : α) : ∀ (l : List α) (n : ℕ),
    n ≤ l.length → List.map f (List.insertIdx n g l) = List.insertIdx n (f g) (List.map f l)
  | l, 0, _ => by simp [List.insertIdx_zero]
  | [], n + 1, hn => absurd hn (by simp)
  | b :: t, n + 1, hn => by
    simp only [List.insertIdx_succ_cons, List.map_cons]
    rw [map_insertIdx_le f g t n (Nat.le_of_succ_le_succ hn)]

theorem sum_insertIdx_le (x : ℚ) (l : List ℚ) (n : ℕ) (hn : n ≤ l.length) :
    (List.insertIdx n x l).sum = x + l.sum := by
  have hperm := List.perm_insertIdx x l hn
  rw [hperm.sum_eq, List.sum_cons]

/-! ## Inserting a zero-ideal goal is invisible to the allocation pass -/

theorem allocateGoals_insertIdx_zero (now : Date) (fd : GoalData)
    (h0 : fd.ideal_monthly = 0) : ∀ (gds : List GoalData) (m : ℕ) (rem : ℚ),
    m ≤ gds.length → 0 ≤ rem →
    allocateGoals now (List.insertIdx m fd gds) rem
      = (List.insertIdx m (mkGoalEntry now fd 0) (allocateGoals now gds rem).1,
         (allocateGoals now gds rem).2)
  | gds, 0, rem, _, hr => by
    rw [List.insertIdx_zero, List.insertIdx_zero]
    have h1 : min rem fd.ideal_monthly = 0 := by rw [h0]; exact min_eq_right hr
    show (mkGoalEntry now fd (min rem fd.ideal_monthly) ::
        (allocateGoals now gds (max 0 (rem - min rem fd.ideal_monthly))).1,
      (allocateGoals now gds (max 0 (rem - min rem fd.ideal_monthly))).2) = _
    rw [h1, sub_zero, max_eq_right hr]
  | [], m + 1, rem, hm, _ => absurd hm (by simp)
  | gd :: rest, m + 1, rem, hm, hr => by
    have hrec := allocateGoals_insertIdx_zero now fd h0 rest m
      (max 0 (rem - min rem gd.ideal_monthly)) (Nat.le_of_succ_le_succ hm) (le_max_left 0 _)
    rw [List.insertIdx_succ_cons]
    show (mkGoalEntry now gd (min rem gd.ideal_monthly) ::
        (allocateGoals now (List.insertIdx m fd rest)
          (max 0 (rem - min rem gd.ideal_monthly))).1,
      (allocateGoals now (List.insertIdx m fd rest)
        (max 0 (rem - min rem gd.ideal_monthly))).2)
      = (List.insertIdx (m + 1) (mkGoalEntry now fd 0)
          (mkGoalEntry now gd (min rem gd.ideal_monthly) ::
            (allocateGoals now rest (max 0 (rem - min rem gd.ideal_monthly))).1),
        (allocateGoals now rest (max 0 (rem - min rem gd.ideal_monthly))).2)
    rw [hrec, List.insertIdx_succ_cons]

theorem insert_zero_ideal_pipeline (f : FinContext) (goals : List Goal) (now : Date)
    (g : Goal) (n : ℕ) (hn : n ≤ goals.length)
    (hi : (computeGoalData now g).ideal_monthly = 0)
    (hs : 0 ≤ (calculateMonthlySavings f).monthly_savings) :
    (∃ m, (calculateGoalProgress f (List.insertIdx n g goals) now).goals
        = List.insertIdx m (mkGoalEntry now (computeGoalData now g) 0)
            ((calculateGoalProgress f goals now).goals))
    ∧ (idealsOf (List.insertIdx n g goals) now).sum = (idealsOf goals now).sum := by
  cases goals with
  | nil =>
    have hn0 : n = 0 := Nat.le_zero.mp hn
    subst hn0
    rw [List.insertIdx_zero]
    refine ⟨⟨0, ?_⟩, ?_⟩
    · rw [calcGP_goals_eq f [g] now (by simp)]
      have h1 : (allocateGoals now (goalDataOf [g] now)
            (calculateMonthlySavings f).monthly_savings).1
          = [mkGoalEntry now (computeGoalData now g)
              (min (calculateMonthlySavings f).monthly_savings
                (computeGoalData now g).ideal_monthly)] := rfl
      rw [h1, hi, min_eq_right hs]
      rfl
    · have h2 : idealsOf [g] now = [(computeGoalData now g).ideal_monthly] := rfl
      have h3 : idealsOf ([] : List Goal) now = [] := rfl
      rw [h2, h3, hi]
      simp
  | cons b tl =>
    have hne : (b :: tl : List Goal) ≠ [] := by simp
    obtain ⟨m, hm, hsorteq⟩ := insertionSort_insertIdx g (b :: tl) n hn
    have hne2 : List.insertIdx n g (b :: tl) ≠ [] := by
      intro hcon
      have hlen : (List.insertIdx n g (b :: tl)).length = (b :: tl).length + 1 :=
        List.length_insertIdx n (b :: tl) hn
      rw [hcon] at hlen
      simp at hlen
    have hmgd : m ≤ (goalDataOf (b :: tl) now).length := by
      simpa [goalDataOf, sortGoals] using hm
    have hgd : goalDataOf (List.insertIdx n g (b :: tl)) now
        = List.insertIdx m (computeGoalData now g) (goalDataOf (b :: tl) now) := by
      show (sortGoals (List.insertIdx n g (b :: tl))).map (computeGoalData now) = _
      rw [show sortGoals (List.insertIdx n g (b :: tl))
          = List.insertIdx m g (sortGoals (b :: tl)) from hsorteq]
      exact map_insertIdx_le (computeGoalData now) g (sortGoals (b :: tl)) m
        (by simpa [sortGoals] using hm)
    constructor
    · refine ⟨m, ?_⟩
      rw [calcGP_goals_eq f _ now hne2, calcGP_goals_eq f _ now hne, hgd,
        allocateGoals_insertIdx_zero now (computeGoalData now g) hi
          (goalDataOf (b :: tl) now) m ((calculateMonthlySavings f).monthly_savings) hmgd hs]
    · have h4 : idealsOf (List.insertIdx n g (b :: tl)) now
          = List.insertIdx m (computeGoalData now g).ideal_monthly (idealsOf (b :: tl) now) := by
        show (goalDataOf (List.insertIdx n g (b :: tl)) now).map GoalData.ideal_monthly = _
        rw [hgd]
        exact map_insertIdx_le GoalData.ideal_monthly (computeGoalData now g) _ m hmgd
      rw [h4, hi, sum_insertIdx_le 0 (idealsOf (b :: tl) now) m
        (by simpa [idealsOf] using hmgd), zero_add]

/-! ## Sorted processing order -/

theorem sortGoals_sorted (goals : List Goal) : List.Sorted goalLE (sortGoals goals) :=
  List.sorted_insertionSort goalLE goals

theorem prioritiesOf_getD (goals : List Goal) (now : Date) (k : ℕ)
    (hk : k < (sortGoals goals).length) :
    (prioritiesOf goals now).getD k 999 = priorityKey ((sortGoals goals).get ⟨k, hk⟩) := by
  have hk2 : k < (prioritiesOf goals now).length := by
    simpa [prioritiesOf, goalDataOf] using hk
  rw [List.getD_eq_getElem _ _ hk2]
  simp [prioritiesOf, goalDataOf, computeGoalData_goal]

theorem sorted_priorities_mono (goals : List Goal) (now : Date) (i j : ℕ)
    (hi : i < (sortGoals goals).length) (hj : j < (sortGoals goals).length)
    (hij : j ≤ i) :
    (prioritiesOf goals now).getD j 999 ≤ (prioritiesOf goals now).getD i 999 := by
  rw [prioritiesOf_getD goals now i hi, prioritiesOf_getD goals now j hj]
  rcases Nat.lt_or_ge j i with hlt | hge
  · exact (sortGoals_sorted goals).rel_get_of_lt (show (⟨j, hj⟩ : Fin _) < ⟨i, hi⟩ from hlt)
  · have : j = i := Nat.le_antisymm hij hge
    subst this
    exact le_refl _

/-- Claim C1: priority-first allocation — processing goals in ascending
priority order (unset priority reads as 999, ties broken by original position
via the stable sort), no goal receives a positive exact `allocated_monthly`
while a strictly higher-priority goal's allocation is still below its
`ideal_monthly` (out-of-range indices read list defaults and make the
statement vacuous or trivial). -/
theorem priority_first_allocation (f : FinContext) (goals : List Goal) (now : Date)
    (i j : ℕ)
    (hp : (prioritiesOf goals now).getD i 999 < (prioritiesOf goals now).getD j 999)
    (ha : 0 < (allocationsOf f goals now).getD j 0) :
    (allocationsOf f goals now).getD i 0 = (idealsOf goals now).getD i 0 := by
  have hlenAI : (allocationsOf f goals now).length = (idealsOf goals now).length :=
    allocList_length _ _
  have hlenIS : (idealsOf goals now).length = (sortGoals goals).length := by
    simp [idealsOf, goalDataOf]
  by_cases hjr : j < (idealsOf goals now).length
  · by_cases hir : i < (idealsOf goals now).length
    · have hij : i < j := by
        by_contra hc
        push_neg at hc
        have hle := sorted_priorities_mono goals now i j (by omega) (by omega) hc
        exact absurd hp (not_lt.mpr hle)
      exact allocList_earlier_full _ _ i j (idealsOf_nonneg goals now) hij ha
    · push_neg at hir
      rw [List.getD_eq_default _ _ (by omega), List.getD_eq_default _ _ hir]
  · push_neg at hjr
    rw [List.getD_eq_default _ _ (by omega)] at ha
    exact absurd ha (lt_irrefl 0)

/-- Claim C2 (amended): the allocator's exact allocations sum to at most
`max 0 monthly_savings` — so to at most `monthly_savings` whenever the pool
is nonnegative — and the *returned* `allocated_monthly` fields, these
allocations rounded to 2 decimals, sum to at most that bound plus `0.005`
per goal. The returned sum genuinely can exceed `monthly_savings`, and an
empty list over a negative pool (negative stored salary) trivially does: see
the counterexample. -/
theorem allocator_no_overcommit (f : FinContext) (goals : List Goal) (now : Date) :
    (allocationsOf f goals now).sum ≤ max 0 (calculateMonthlySavings f).monthly_savings
    ∧ ((calculateGoalProgress f goals now).goals.map GoalEntry.allocated_monthly).sum
        ≤ max 0 (calculateMonthlySavings f).monthly_savings + (goals.length : ℚ) / 200 := by
  constructor
  · exact allocList_sum_le_max _ _
  · rw [calcGP_map_allocated]
    have h1 := sum_map_round2_le (allocationsOf f goals now)
    rw [allocationsOf_length] at h1
    have h2 : (allocationsOf f goals now).sum
        ≤ max 0 (calculateMonthlySavings f).monthly_savings := allocList_sum_le_max _ _
    linarith

/-- Claim C3: conservation — the exact allocations plus the exact leftover
`remaining_savings` equal `monthly_savings` for every input (the reported
values are these, rounded to 2 decimals, which is the floating-point
tolerance the spec allows). -/
theorem allocator_conservation (f : FinContext) (goals : List Goal) (now : Date) :
    (allocationsOf f goals now).sum + remainingAfter f goals now
      = (calculateMonthlySavings f).monthly_savings
    ∧ (calculateGoalProgress f goals now).goals.map GoalEntry.allocated_monthly
        = (allocationsOf f goals now).map round2
    ∧ (goals ≠ [] → (calculateGoalProgress f goals now).unallocated_savings
        = some (round2 (remainingAfter f goals now))) :=
  ⟨allocList_sum_add_remAfter _ _, calcGP_map_allocated f goals now,
    fun h => calcGP_unalloc_eq f goals now h⟩

/-- Claim C8 (amended): the result carries `unallocated_savings` equal to the
final `remaining_savings` (rounded to 2 decimals) whenever the goal list is
nonempty; the no-goals early return omits the key (see the counterexample). -/
theorem unallocated_savings_reported (f : FinContext) (goals : List Goal) (now : Date)
    (h : goals ≠ []) :
    (calculateGoalProgress f goals now).unallocated_savings
      = some (round2 (remainingAfter f goals now)) :=
  calcGP_unalloc_eq f goals now h

/-- Claim C8, counterexample: with no goals the returned dictionary has no
`unallocated_savings` key at all (modelled as `none`), against the claim that
every result contains the field (equal to `monthly_savings` in this case). -/
theorem unallocated_savings_no_goals_counterexample :
    (calculateGoalProgress ⟨some 40000, some 10000, 1, 5000, 3, []⟩ []
        ⟨2026, 10, 12⟩).unallocated_savings = none
    ∧ (calculateGoalProgress ⟨some 40000, some 10000, 1, 5000, 3, []⟩ []
        ⟨2026, 10, 12⟩).goals = []
    ∧ (calculateGoalProgress ⟨some 40000, some 10000, 1, 5000, 3, []⟩ []
        ⟨2026, 10, 12⟩).total_goal_target = 0
    ∧ (calculateGoalProgress ⟨some 40000, some 10000, 1, 5000, 3, []⟩ []
        ⟨2026, 10, 12⟩).total_current_saved = 0 :=
  ⟨rfl, rfl, rfl, rfl⟩

/-! ## Claim C4: the deadline rule -/

/-- The deadline rule `calculate_goal_progress` actually implements, written
the way the (amended) claim states it: whenever `target_date` parses as
`YYYY-MM-DD` the result is the calendar-month difference floored at 1 — also
for past or current-month dates — and 12 only when the date is missing, empty
or unparseable. -/
def monthsToDeadlineRule (td : Option String) (now : Date) : ℤ :=
  match td with
  | none => 12
  | some s =>
    match parseDate s with
    | some d => max 1 (((d.year : ℤ) - now.year) * 12 + ((d.month : ℤ) - now.month))
    | none => 12

theorem parseDate_empty : parseDate "" = none := rfl

theorem computeGoalData_months_rule (now : Date) (g : Goal) :
    (computeGoalData now g).months_to_deadline = monthsToDeadlineRule g.target_date now := by
  rw [computeGoalData_months]
  cases htd : g.target_date with
  | none => rfl
  | some s =>
    by_cases hs : s = ""
    · subst hs
      simp [truthyStr, monthsToDeadlineRule, parseDate_empty]
    · simp [truthyStr, hs, monthsToDeadlineRule]

/-- Claim C4 (amended): along the whole computation, every processed goal's
`months_to_deadline` follows `monthsToDeadlineRule` — `max 1` of the
calendar-month difference whenever `target_date` parses (so a past date gives
1, not 12; see the counterexample), 12 otherwise — and `ideal_monthly` is
`amount_needed / months_to_deadline` when `amount_needed > 0`, else 0, with
`amount_needed = max 0 (target_amount - current_saved)`. -/
theorem months_to_deadline_and_ideal (goals : List Goal) (now : Date) :
    ∀ gd ∈ goalDataOf goals now,
      gd.months_to_deadline = monthsToDeadlineRule gd.goal.target_date now
      ∧ gd.amount_needed
          = max 0 (parseAmountValue gd.goal.target_amount - currentSavedOf gd.goal)
      ∧ gd.ideal_monthly
          = (if 0 < gd.amount_needed then gd.amount_needed / (gd.months_to_deadline : ℚ)
            else 0) := by
  intro gd hgd
  simp only [goalDataOf, List.mem_map] at hgd
  obtain ⟨g, _, rfl⟩ := hgd
  rw [computeGoalData_goal]
  exact ⟨computeGoalData_months_rule now g, computeGoalData_amount now g,
    computeGoalData_ideal now g⟩

/-- Claim C4, counterexample: a goal whose `target_date` `"2020-01-01"` parses
and lies strictly in the past of `now = 2026-10-12` gets
`months_to_deadline = max(1, -81) = 1`, not the 12 the claim requires for
every non-future date. -/
theorem months_past_date_counterexample :
    parseDate "2020-01-01" = some ⟨2020, 1, 1⟩
    ∧ dateLtB ⟨2020, 1, 1⟩ ⟨2026, 10, 12⟩ = true
    ∧ (goalDataOf
        [⟨"trip", "Trip", some "1200", some "2020-01-01", some 1, none, none, none, none, none⟩]
        ⟨2026, 10, 12⟩).map GoalData.months_to_deadline = [1]
    ∧ (1 : ℤ) ≠ 12 := by
  refine ⟨by decide, by decide, ?_, by decide⟩
  show [(computeGoalData ⟨2026, 10, 12⟩
    ⟨"trip", "Trip", some "1200", some "2020-01-01", some 1, none, none, none, none, none⟩).months_to_deadline] = [1]
  rw [computeGoalData_months]
  decide

/-! ## Claim C7: the budget-based savings pool -/

theorem cms_monthly_savings (f : FinContext) :
    (calculateMonthlySavings f).monthly_savings
      = (if 0 < f.monthly_budget.getD 0 then
          max 0 (f.monthly_salary.getD 0 - f.monthly_budget.getD 0)
        else f.monthly_salary.getD 0) := rfl

theorem cms_budget_used (f : FinContext) :
    (calculateMonthlySavings f).budget_used_percentage
      = round1 (if 0 < f.monthly_budget.getD 0 then
          f.spending_total / f.monthly_budget.getD 0 * 100 else 0) := rfl

theorem cms_expected (f : FinContext) :
    (calculateMonthlySavings f).expected_savings
      = (if 0 < f.monthly_budget.getD 0 then
          max 0 (f.monthly_salary.getD 0 - f.monthly_budget.getD 0) else 0) := rfl

theorem round1_zero : round1 0 = 0 := by
  have h : pyRoundInt 0 = 0 := by simp [pyRoundInt]
  simp [round1, roundTo, h]

/-- Claim C7: with a (positive) monthly budget set the savings pool is
`max(0, salary - budget)`; with no budget (the stored value resolving to 0)
it is the whole salary, and then `budget_used_percentage = 0` and
`expected_savings = 0`. -/
theorem savings_pool_rule (f : FinContext) :
    (0 < f.monthly_budget.getD 0 →
      (calculateMonthlySavings f).monthly_savings
        = max 0 (f.monthly_salary.getD 0 - f.monthly_budget.getD 0))
    ∧ (f.monthly_budget.getD 0 = 0 →
      (calculateMonthlySavings f).monthly_savings = f.monthly_salary.getD 0
      ∧ (calculateMonthlySavings f).budget_used_percentage = 0
      ∧ (calculateMonthlySavings f).expected_savings = 0) := by
  constructor
  · intro h
    rw [cms_monthly_savings, if_pos h]
  · intro h
    have hnp : ¬ 0 < f.monthly_budget.getD 0 := by rw [h]; exact lt_irrefl 0
    refine ⟨?_, ?_, ?_⟩
    · rw [cms_monthly_savings, if_neg hnp]
    · rw [cms_budget_used, if_neg hnp]; exact round1_zero
    · rw [cms_expected, if_neg hnp]

/-! ## Claims C5 and C6: free goals and malformed amounts -/

/-- Claim C5 (amended): an already-funded goal (`current_saved >=
target_amount`) gets `amount_needed = 0`, `ideal_monthly = 0`, contributes
nothing to `total_ideal_needed`, and inserting it anywhere into the goal
list (read right-to-left: removing it) inserts one all-zero entry into the
returned `goals` and leaves every other goal's entry — in particular its
`allocated_monthly` — unchanged, provided the savings pool is nonnegative:
at a reachable negative pool the funded goal absorbs the whole negative
remainder and zeroes its successors (see the counterexample). -/
theorem funded_goal_is_free (f : FinContext) (goals : List Goal) (now : Date)
    (g : Goal) (n : ℕ) (hn : n ≤ goals.length)
    (hf : parseAmountValue g.target_amount ≤ currentSavedOf g)
    (hs : 0 ≤ (calculateMonthlySavings f).monthly_savings) :
    (computeGoalData now g).amount_needed = 0
    ∧ (computeGoalData now g).ideal_monthly = 0
    ∧ (idealsOf (List.insertIdx n g goals) now).sum = (idealsOf goals now).sum
    ∧ ∃ m e, e.amount_needed = 0 ∧ e.ideal_monthly = 0 ∧ e.allocated_monthly = 0
        ∧ (calculateGoalProgress f (List.insertIdx n g goals) now).goals
            = List.insertIdx m e ((calculateGoalProgress f goals now).goals) := by
  have hamt : (computeGoalData now g).amount_needed = 0 := by
    rw [computeGoalData_amount]
    exact max_eq_left (by linarith)
  have hi := ideal_monthly_eq_zero now g hamt
  obtain ⟨⟨m, hm⟩, hsum⟩ := insert_zero_ideal_pipeline f goals now g n hn hi hs
  refine ⟨hamt, hi, hsum, m, mkGoalEntry now (computeGoalData now g) 0, ?_, ?_, ?_, hm⟩
  · rw [mkGoalEntry_amount]; exact hamt
  · rw [mkGoalEntry_ideal, hi]; exact round2_zero
  · rw [mkGoalEntry_allocated]; exact round2_zero

/-- Claim C6 (amended): a goal whose `target_amount` fails to parse (such as
`"not-a-number"`, whose cleaned form `"--"` is rejected by `float`) is
recovered to `amount_needed = 0` and `ideal_monthly = 0` without anything
being raised, and inserting it anywhere into the list leaves every other
goal's entry unchanged — provided the resulting list does not mix unset and
set priorities (mixing makes the `sorted()` call raise `TypeError`, see the
counterexample) and the saved amount and savings pool are nonnegative (the
only states nonnegative contributions produce). -/
theorem malformed_target_recovers (f : FinContext) (goals : List Goal) (now : Date)
    (g : Goal) (n : ℕ) (hn : n ≤ goals.length)
    (hmix : ¬ mixedPriorities (List.insertIdx n g goals))
    (hbad : parseAmountValue g.target_amount = 0)
    (hcur : 0 ≤ currentSavedOf g)
    (hs : 0 ≤ (calculateMonthlySavings f).monthly_savings) :
    calculateGoalProgressE f (List.insertIdx n g goals) now
      = Except.ok (calculateGoalProgress f (List.insertIdx n g goals) now)
    ∧ parseAmountStr "not-a-number" = 0
    ∧ (computeGoalData now g).amount_needed = 0
    ∧ (computeGoalData now g).ideal_monthly = 0
    ∧ ∃ m e, e.amount_needed = 0 ∧ e.ideal_monthly = 0 ∧ e.allocated_monthly = 0
        ∧ (calculateGoalProgress f (List.insertIdx n g goals) now).goals
            = List.insertIdx m e ((calculateGoalProgress f goals now).goals) := by
  have hok : calculateGoalProgressE f (List.insertIdx n g goals) now
      = Except.ok (calculateGoalProgress f (List.insertIdx n g goals) now) := by
    show (if mixedPriorities (List.insertIdx n g goals) then _ else _) = _
    rw [if_neg hmix]
  have hamt : (computeGoalData now g).amount_needed = 0 := by
    rw [computeGoalData_amount, hbad]
    exact max_eq_left (by linarith)
  have hi := ideal_monthly_eq_zero now g hamt
  obtain ⟨⟨m, hm⟩, _⟩ := insert_zero_ideal_pipeline f goals now g n hn hi hs
  refine ⟨hok, rfl, hamt, hi, m, mkGoalEntry now (computeGoalData now g) 0, ?_, ?_, ?_, hm⟩
  · rw [mkGoalEntry_amount]; exact hamt
  · rw [mkGoalEntry_ideal, hi]; exact round2_zero
  · rw [mkGoalEntry_allocated]; exact round2_zero

/-! ## Claims C9 and C10: the goal store operations -/

theorem mem_allocateGoals_fst (now : Date) : ∀ (gds : List GoalData) (rem : ℚ) (e : GoalEntry),
    e ∈ (allocateGoals now gds rem).1 → ∃ gd ∈ gds, ∃ a, e = mkGoalEntry now gd a
  | [], _, e, h => absurd h (List.not_mem_nil e)
  | gd :: rest, rem, e, h => by
    simp only [allocateGoals, List.mem_cons] at h
    rcases h with he | ht
    · exact ⟨gd, List.mem_cons_self gd rest, min rem gd.ideal_monthly, he⟩
    · obtain ⟨gd2, hgd2, a, ha⟩ := mem_allocateGoals_fst now rest _ e ht
      exact ⟨gd2, List.mem_cons_of_mem gd hgd2, a, ha⟩

/-- Claim C9: `sync_goals` stores each goal as exactly
`{id, label, target_amount, target_date, priority, synced_at}` — with neither
`current_saved` nor `current_amount` — so after any sync every goal's saved
amount reads as 0 throughout the goal-progress computation, and contributions
made before the sync leave no trace in the stored state. -/
theorem sync_resets_saved_amounts (st : Option (List Goal)) (req : List GoalDetail)
    (ts : String) (f : FinContext) (now : Date) :
    saveGoals st req ts = some (syncGoals req ts)
    ∧ (∀ g ∈ syncGoals req ts,
        g.current_amount = none ∧ g.current_saved = none ∧ currentSavedOf g = 0)
    ∧ (∀ gid amt, saveGoals (updateGoalSavedAmount st gid amt) req ts = saveGoals st req ts)
    ∧ (∀ e ∈ (calculateGoalProgress f (syncGoals req ts) now).goals,
        e.current_saved = 0 ∧ e.current = 0) := by
  refine ⟨rfl, ?_, fun _ _ => rfl, ?_⟩
  · intro g hg
    simp only [syncGoals, List.mem_map] at hg
    obtain ⟨d, _, rfl⟩ := hg
    exact ⟨rfl, rfl, rfl⟩
  · intro e he
    cases hreq : syncGoals req ts with
    | nil =>
      rw [hreq] at he
      simp [calculateGoalProgress] at he
    | cons b tl =>
      rw [hreq] at he
      rw [calcGP_goals_eq f (b :: tl) now (by simp)] at he
      obtain ⟨gd, hgd, a, rfl⟩ := mem_allocateGoals_fst now _ _ e he
      simp only [goalDataOf, List.mem_map] at hgd
      obtain ⟨g, hgs, rfl⟩ := hgd
      have hgmem : g ∈ (b :: tl : List Goal) :=
        ((List.perm_insertionSort goalLE (b :: tl)).mem_iff).mp hgs
      rw [← hreq] at hgmem
      simp only [syncGoals, List.mem_map] at hgmem
      obtain ⟨d, _, rfl⟩ := hgmem
      constructor
      · rw [mkGoalEntry_current, computeGoalData_current]; rfl
      · rw [mkGoalEntry_cur, computeGoalData_current]; rfl

theorem updateFirstGoal_no_match (gid : String) (amt : ℚ) : ∀ (l : List Goal),
    (∀ g ∈ l, g.id ≠ gid) → updateFirstGoal l gid amt = l
  | [], _ => rfl
  | g :: rest, h => by
    have hg : g.id ≠ gid := h g (List.mem_cons_self g rest)
    simp only [updateFirstGoal, if_neg hg]
    rw [updateFirstGoal_no_match gid amt rest (fun x hx => h x (List.mem_cons_of_mem g hx))]

theorem updateFirstGoal_first_match (gid : String) (amt : ℚ) : ∀ (l : List Goal) (i : ℕ)
    (h : i < l.length), (l.get ⟨i, h⟩).id = gid →
    (∀ (k : ℕ) (hk : k < l.length), k < i → (l.get ⟨k, hk⟩).id ≠ gid) →
    updateFirstGoal l gid amt
      = l.set i { l.get ⟨i, h⟩ with
          current_saved := some ((l.get ⟨i, h⟩).current_saved.getD 0 + amt) }
  | [], i, h, _, _ => absurd h (by simp)
  | g :: rest, 0, _, hid, _ => by
    simp only [List.get] at hid
    simp only [updateFirstGoal, if_pos hid, List.set]
    rfl
  | g :: rest, i + 1, h, hid, hbefore => by
    have hg : g.id ≠ gid := hbefore 0 (by simp) (Nat.succ_pos i)
    simp only [updateFirstGoal, if_neg hg, List.set]
    rw [updateFirstGoal_first_match gid amt rest i (Nat.lt_of_succ_lt_succ h) hid
      (fun k hk hki => hbefore (k + 1) (Nat.succ_lt_succ hk) (Nat.succ_lt_succ hki))]
    rfl

/-- Claim C10: contributing to a goal id that matches nothing (or for a user
with no goals record) changes no state and raises nothing, and the endpoint's
success message is the same whether or not anything matched; when the id does
match, only the first matching goal changes, and only its `current_saved`. -/
theorem contribute_unknown_goal_noop (gid : String) (amt : ℚ) (symbol : String) :
    updateGoalSavedAmount none gid amt = none
    ∧ (∀ l : List Goal, (∀ g ∈ l, g.id ≠ gid) →
        updateGoalSavedAmount (some l) gid amt = some l)
    ∧ (∀ st st2 : Option (List Goal),
        (saveToGoal st gid amt symbol).2 = (saveToGoal st2 gid amt symbol).2)
    ∧ (∀ (l : List Goal) (i : ℕ) (h : i < l.length),
        (l.get ⟨i, h⟩).id = gid →
        (∀ (k : ℕ) (hk : k < l.length), k < i → (l.get ⟨k, hk⟩).id ≠ gid) →
        updateFirstGoal l gid amt
          = l.set i { l.get ⟨i, h⟩ with
              current_saved := some ((l.get ⟨i, h⟩).current_saved.getD 0 + amt) }) := by
  refine ⟨rfl, ?_, fun _ _ => rfl, updateFirstGoal_first_match gid amt⟩
  intro l hl
  show some (updateFirstGoal l gid amt) = some l
  rw [updateFirstGoal_no_match gid amt l hl]

/-! ## Concrete inputs used by the witnesses -/

/-- Goal A of the witness runs: priority 1, target 6000, no deadline. -/
def wG1 : Goal := ⟨"a", "A", some "6000", none, some 1, none, none, none, none, none⟩

/-- Goal B of the witness runs: priority 2, target 2400, no deadline. -/
def wG2 : Goal := ⟨"b", "B", some "2400", none, some 2, none, none, none, none, none⟩

/-- An already-funded goal: target 50, saved 60. -/
def wFunded : Goal := ⟨"f", "F", some "50", none, some 1, none, none, some 60, none, none⟩

/-- A goal with an unparseable target amount and an unset priority: beside a
goal with an integer priority it makes the real sort raise. -/
def wBad : Goal := ⟨"x", "X", some "not-a-number", none, none, none, none, none, none, none⟩

/-- A goal with an unparseable target amount and a set priority: safe to sort
beside `wG1`. -/
def wBadP : Goal := ⟨"x2", "X2", some "not-a-number", none, some 3, none, none, none, none, none⟩

/-- Financial inputs of the witness runs: salary 1200, no budget. -/
def wFin : FinContext := ⟨some 1200, none, 1, 0, 0, []⟩

/-- The fixed "now" of the witness runs. -/
def wNow : Date := ⟨2026, 1, 15⟩

theorem wSort : sortGoals [wG1, wG2] = [wG1, wG2] := by decide

theorem wMS : (calculateMonthlySavings wFin).monthly_savings = 1200 := by
  rw [cms_monthly_savings]
  norm_num [wFin]

theorem wIdeal1 : (computeGoalData wNow wG1).ideal_monthly = 500 := by
  rw [computeGoalData_ideal, computeGoalData_amount, computeGoalData_months_rule,
    show parseAmountValue wG1.target_amount = 6000 from rfl,
    show currentSavedOf wG1 = 0 from rfl,
    show monthsToDeadlineRule wG1.target_date wNow = 12 from rfl]
  norm_num

theorem wIdeal2 : (computeGoalData wNow wG2).ideal_monthly = 200 := by
  rw [computeGoalData_ideal, computeGoalData_amount, computeGoalData_months_rule,
    show parseAmountValue wG2.target_amount = 2400 from rfl,
    show currentSavedOf wG2 = 0 from rfl,
    show monthsToDeadlineRule wG2.target_date wNow = 12 from rfl]
  norm_num

theorem wIdeals : idealsOf [wG1, wG2] wNow = [500, 200] := by
  rw [idealsOf, goalDataOf, wSort]
  simp only [List.map_cons, List.map_nil]
  rw [wIdeal1, wIdeal2]

theorem wAllocs : allocationsOf wFin [wG1, wG2] wNow = [500, 200] := by
  rw [allocationsOf]
  rw [show (idealsOf [wG1, wG2] wNow) = [500, 200] from wIdeals, wMS]
  norm_num [allocList]

/-- Witness for claim C1 at a concrete two-goal input. -/
theorem priority_first_allocation_witness :
    (prioritiesOf [wG1, wG2] wNow).getD 0 999 < (prioritiesOf [wG1, wG2] wNow).getD 1 999
    ∧ 0 < (allocationsOf wFin [wG1, wG2] wNow).getD 1 0
    ∧ (allocationsOf wFin [wG1, wG2] wNow).getD 0 0 = (idealsOf [wG1, wG2] wNow).getD 0 0 := by
  have h1 : (prioritiesOf [wG1, wG2] wNow).getD 0 999
      < (prioritiesOf [wG1, wG2] wNow).getD 1 999 := by decide
  have h2 : 0 < (allocationsOf wFin [wG1, wG2] wNow).getD 1 0 := by
    rw [wAllocs]
    norm_num
  exact ⟨h1, h2, priority_first_allocation wFin [wG1, wG2] wNow 0 1 h1 h2⟩

/-- Witness for claim C3 at a concrete input, with the nonempty-goals
implication discharged. -/
theorem allocator_conservation_witness :
    ([wG1, wG2] : List Goal) ≠ []
    ∧ (allocationsOf wFin [wG1, wG2] wNow).sum + remainingAfter wFin [wG1, wG2] wNow
        = (calculateMonthlySavings wFin).monthly_savings
    ∧ (calculateGoalProgress wFin [wG1, wG2] wNow).unallocated_savings
        = some (round2 (remainingAfter wFin [wG1, wG2] wNow)) := by
  have hne : ([wG1, wG2] : List Goal) ≠ [] := by simp
  obtain ⟨ha, _, hc⟩ := allocator_conservation wFin [wG1, wG2] wNow
  exact ⟨hne, ha, hc hne⟩

/-- Witness for claim C4 (amended) on a concrete processed goal. -/
theorem months_to_deadline_and_ideal_witness :
    (computeGoalData wNow wG1) ∈ goalDataOf [wG1] wNow
    ∧ ((computeGoalData wNow wG1).months_to_deadline
        = monthsToDeadlineRule (computeGoalData wNow wG1).goal.target_date wNow
      ∧ (computeGoalData wNow wG1).amount_needed
          = max 0 (parseAmountValue (computeGoalData wNow wG1).goal.target_amount
              - currentSavedOf (computeGoalData wNow wG1).goal)
      ∧ (computeGoalData wNow wG1).ideal_monthly
          = (if 0 < (computeGoalData wNow wG1).amount_needed then
              (computeGoalData wNow wG1).amount_needed
                / ((computeGoalData wNow wG1).months_to_deadline : ℚ)
            else 0)) := by
  have hmem : (computeGoalData wNow wG1) ∈ goalDataOf [wG1] wNow := by
    rw [show goalDataOf [wG1] wNow = [computeGoalData wNow wG1] from rfl]
    exact List.mem_singleton_self _
  exact ⟨hmem, months_to_deadline_and_ideal [wG1] wNow (computeGoalData wNow wG1) hmem⟩

/-- Witness for claim C5: inserting the funded goal `wFunded` in front of
`wG1` at a concrete input. -/
theorem funded_goal_is_free_witness :
    0 ≤ ([wG1] : List Goal).length
    ∧ parseAmountValue wFunded.target_amount ≤ currentSavedOf wFunded
    ∧ 0 ≤ (calculateMonthlySavings wFin).monthly_savings
    ∧ ((computeGoalData wNow wFunded).amount_needed = 0
      ∧ (computeGoalData wNow wFunded).ideal_monthly = 0
      ∧ (idealsOf (List.insertIdx 0 wFunded [wG1]) wNow).sum = (idealsOf [wG1] wNow).sum
      ∧ ∃ m e, e.amount_needed = 0 ∧ e.ideal_monthly = 0 ∧ e.allocated_monthly = 0
          ∧ (calculateGoalProgress wFin (List.insertIdx 0 wFunded [wG1]) wNow).goals
              = List.insertIdx m e ((calculateGoalProgress wFin [wG1] wNow).goals)) := by
  have hf : parseAmountValue wFunded.target_amount ≤ currentSavedOf wFunded := by
    rw [show parseAmountValue wFunded.target_amount = 50 from rfl,
      show currentSavedOf wFunded = 60 from rfl]
    norm_num
  have hs : 0 ≤ (calculateMonthlySavings wFin).monthly_savings := by rw [wMS]; norm_num
  exact ⟨Nat.zero_le _, hf, hs,
    funded_goal_is_free wFin [wG1] wNow wFunded 0 (Nat.zero_le _) hf hs⟩

/-- Witness for claim C6 (amended): inserting the malformed goal `wBadP`
(priority set, so no mixed-priority crash) in front of `wG1` at a concrete
input. -/
theorem malformed_target_recovers_witness :
    0 ≤ ([wG1] : List Goal).length
    ∧ ¬ mixedPriorities (List.insertIdx 0 wBadP [wG1])
    ∧ parseAmountValue wBadP.target_amount = 0
    ∧ 0 ≤ currentSavedOf wBadP
    ∧ 0 ≤ (calculateMonthlySavings wFin).monthly_savings
    ∧ (calculateGoalProgressE wFin (List.insertIdx 0 wBadP [wG1]) wNow
        = Except.ok (calculateGoalProgress wFin (List.insertIdx 0 wBadP [wG1]) wNow)
      ∧ parseAmountStr "not-a-number" = 0
      ∧ (computeGoalData wNow wBadP).amount_needed = 0
      ∧ (computeGoalData wNow wBadP).ideal_monthly = 0
      ∧ ∃ m e, e.amount_needed = 0 ∧ e.ideal_monthly = 0 ∧ e.allocated_monthly = 0
          ∧ (calculateGoalProgress wFin (List.insertIdx 0 wBadP [wG1]) wNow).goals
              = List.insertIdx m e ((calculateGoalProgress wFin [wG1] wNow).goals)) := by
  have hmix : ¬ mixedPriorities (List.insertIdx 0 wBadP [wG1]) := by decide
  have hbad : parseAmountValue wBadP.target_amount = 0 := rfl
  have hcur : 0 ≤ currentSavedOf wBadP := by
    rw [show currentSavedOf wBadP = 0 from rfl]
  have hs : 0 ≤ (calculateMonthlySavings wFin).monthly_savings := by rw [wMS]; norm_num
  exact ⟨Nat.zero_le _, hmix, hbad, hcur, hs,
    malformed_target_recovers wFin [wG1] wNow wBadP 0 (Nat.zero_le _) hmix hbad hcur hs⟩

/-- Witness for claim C7: the spec's example — salary 50000, no budget. -/
theorem savings_pool_rule_witness :
    (⟨some 50000, none, 1, 0, 0, []⟩ : FinContext).monthly_budget.getD 0 = 0
    ∧ ((calculateMonthlySavings ⟨some 50000, none, 1, 0, 0, []⟩).monthly_savings
        = (⟨some 50000, none, 1, 0, 0, []⟩ : FinContext).monthly_salary.getD 0
      ∧ (calculateMonthlySavings ⟨some 50000, none, 1, 0, 0, []⟩).budget_used_percentage = 0
      ∧ (calculateMonthlySavings ⟨some 50000, none, 1, 0, 0, []⟩).expected_savings = 0)
    ∧ (⟨some 50000, none, 1, 0, 0, []⟩ : FinContext).monthly_salary.getD 0 = 50000 :=
  ⟨rfl, (savings_pool_rule ⟨some 50000, none, 1, 0, 0, []⟩).2 rfl, rfl⟩

/-- Witness for claim C8 (amended) at a concrete nonempty goal list. -/
theorem unallocated_savings_reported_witness :
    ([wG1] : List Goal) ≠ []
    ∧ (calculateGoalProgress wFin [wG1] wNow).unallocated_savings
        = some (round2 (remainingAfter wFin [wG1] wNow)) := by
  have hne : ([wG1] : List Goal) ≠ [] := by simp
  exact ⟨hne, unallocated_savings_reported wFin [wG1] wNow hne⟩

/-- Witness for claim C9 at a concrete sync request. -/
theorem sync_resets_saved_amounts_witness :
    (⟨"a", "A", some "100", none, some 1, some "2026-10-12T00:00:00", none, none, none, none⟩ : Goal)
      ∈ syncGoals [⟨"a", "A", some "100", none, some 1⟩] "2026-10-12T00:00:00"
    ∧ ((⟨"a", "A", some "100", none, some 1, some "2026-10-12T00:00:00", none, none, none, none⟩ : Goal).current_amount = none
      ∧ (⟨"a", "A", some "100", none, some 1, some "2026-10-12T00:00:00", none, none, none, none⟩ : Goal).current_saved = none
      ∧ currentSavedOf ⟨"a", "A", some "100", none, some 1, some "2026-10-12T00:00:00", none, none, none, none⟩ = 0)
    ∧ saveGoals (updateGoalSavedAmount none "a" 5) [⟨"a", "A", some "100", none, some 1⟩]
        "2026-10-12T00:00:00"
      = saveGoals none [⟨"a", "A", some "100", none, some 1⟩] "2026-10-12T00:00:00" := by
  have hmem : (⟨"a", "A", some "100", none, some 1, some "2026-10-12T00:00:00", none, none, none, none⟩ : Goal)
      ∈ syncGoals [⟨"a", "A", some "100", none, some 1⟩] "2026-10-12T00:00:00" := by
    rw [show syncGoals [⟨"a", "A", some "100", none, some 1⟩] "2026-10-12T00:00:00"
      = [⟨"a", "A", some "100", none, some 1, some "2026-10-12T00:00:00", none, none, none, none⟩] from rfl]
    exact List.mem_singleton_self _
  refine ⟨hmem, ?_, ?_⟩
  · exact (sync_resets_saved_amounts none [⟨"a", "A", some "100", none, some 1⟩]
      "2026-10-12T00:00:00" wFin wNow).2.1 _ hmem
  · exact (sync_resets_saved_amounts none [⟨"a", "A", some "100", none, some 1⟩]
      "2026-10-12T00:00:00" wFin wNow).2.2.1 "a" 5

/-- Witness for claim C10: an unknown goal id at a concrete store. -/
theorem contribute_unknown_goal_noop_witness :
    (∀ g ∈ ([wFunded] : List Goal), g.id ≠ "zzz")
    ∧ updateGoalSavedAmount (some [wFunded]) "zzz" 5 = some [wFunded]
    ∧ (saveToGoal (some [wFunded]) "zzz" 5 "Rs").2 = (saveToGoal none "zzz" 5 "Rs").2 := by
  have hno : ∀ g ∈ ([wFunded] : List Goal), g.id ≠ "zzz" := by decide
  exact ⟨hno, (contribute_unknown_goal_noop "zzz" 5 "Rs").2.1 [wFunded] hno,
    (contribute_unknown_goal_noop "zzz" 5 "Rs").2.2.1 (some [wFunded]) none⟩

/-! ## Concrete inputs of the counterexamples -/

/-- Financial inputs with pool 1 (salary 1, no budget). -/
def czFin : FinContext := ⟨some 1, none, 1, 0, 0, []⟩

/-- Financial inputs with a negative pool: stored salary -100 (the profile
endpoint's coercion accepts negative integers), no budget. -/
def czNegFin : FinContext := ⟨some (-100), none, 1, 0, 0, []⟩

/-- Rounding-overcommit goal 1: target 2, no deadline, priority 1. -/
def cz1 : Goal := ⟨"c1", "C1", some "2", none, some 1, none, none, none, none, none⟩

/-- Rounding-overcommit goal 2: target 2, no deadline, priority 2. -/
def cz2 : Goal := ⟨"c2", "C2", some "2", none, some 2, none, none, none, none, none⟩

/-- Rounding-overcommit goal 3: target 8, no deadline, priority 3. -/
def cz3 : Goal := ⟨"c3", "C3", some "8", none, some 3, none, none, none, none, none⟩

/-- A lower-priority unfunded goal: target 120, no deadline, priority 2. -/
def c5G : Goal := ⟨"n", "N", some "120", none, some 2, none, none, none, none, none⟩

theorem czSort : sortGoals [cz1, cz2, cz3] = [cz1, cz2, cz3] := by decide

theorem czMS : (calculateMonthlySavings czFin).monthly_savings = 1 := by
  rw [cms_monthly_savings]
  norm_num [czFin]

theorem czNegMS : (calculateMonthlySavings czNegFin).monthly_savings = -100 := by
  rw [cms_monthly_savings]
  norm_num [czNegFin]

theorem czIdeal1 : (computeGoalData wNow cz1).ideal_monthly = 1 / 6 := by
  rw [computeGoalData_ideal, computeGoalData_amount, computeGoalData_months_rule,
    show parseAmountValue cz1.target_amount = 2 from rfl,
    show currentSavedOf cz1 = 0 from rfl,
    show monthsToDeadlineRule cz1.target_date wNow = 12 from rfl]
  norm_num

theorem czIdeal2 : (computeGoalData wNow cz2).ideal_monthly = 1 / 6 := by
  rw [computeGoalData_ideal, computeGoalData_amount, computeGoalData_months_rule,
    show parseAmountValue cz2.target_amount = 2 from rfl,
    show currentSavedOf cz2 = 0 from rfl,
    show monthsToDeadlineRule cz2.target_date wNow = 12 from rfl]
  norm_num

theorem czIdeal3 : (computeGoalData wNow cz3).ideal_monthly = 2 / 3 := by
  rw [computeGoalData_ideal, computeGoalData_amount, computeGoalData_months_rule,
    show parseAmountValue cz3.target_amount = 8 from rfl,
    show currentSavedOf cz3 = 0 from rfl,
    show monthsToDeadlineRule cz3.target_date wNow = 12 from rfl]
  norm_num

theorem czIdeals : idealsOf [cz1, cz2, cz3] wNow = [1 / 6, 1 / 6, 2 / 3] := by
  rw [idealsOf, goalDataOf, czSort]
  simp only [List.map_cons, List.map_nil]
  rw [czIdeal1, czIdeal2, czIdeal3]

theorem czAllocs : allocationsOf czFin [cz1, cz2, cz3] wNow = [1 / 6, 1 / 6, 2 / 3] := by
  rw [allocationsOf, czIdeals, czMS]
  norm_num [allocList]

theorem czRound16 : round2 (1 / 6 : ℚ) = 17 / 100 := by
  have h : pyRoundInt ((1 / 6 : ℚ) * (10 : ℚ) ^ 2) = 17 := by
    have h2 := pyRoundInt_up_eval ((1 / 6 : ℚ) * (10 : ℚ) ^ 2) 16
      (by norm_num) (by norm_num) (by norm_num)
    exact h2.trans (by norm_num)
  rw [round2_eval _ 17 h]
  norm_num

theorem czRound23 : round2 (2 / 3 : ℚ) = 67 / 100 := by
  have h : pyRoundInt ((2 / 3 : ℚ) * (10 : ℚ) ^ 2) = 67 := by
    have h2 := pyRoundInt_up_eval ((2 / 3 : ℚ) * (10 : ℚ) ^ 2) 66
      (by norm_num) (by norm_num) (by norm_num)
    exact h2.trans (by norm_num)
  rw [round2_eval _ 67 h]
  norm_num

theorem czRoundNeg100 : round2 (-100 : ℚ) = -100 := by
  have h : pyRoundInt ((-100 : ℚ) * (10 : ℚ) ^ 2) = -10000 := by
    exact pyRoundInt_down_eval _ (-10000) (by norm_num) (by norm_num) (by norm_num)
  rw [round2_eval _ (-10000) h]
  norm_num
/-- Claim C2, counterexample, both failure modes. With pool 1 and three
no-deadline goals of integer targets 2, 2 and 8 the exact allocations are
1/6, 1/6 and 2/3, but the *returned* fields round to 0.17 + 0.17 + 0.67 =
1.01 > 1. And a stored salary of -100 with no budget (accepted by the
profile endpoint's coercion) gives `monthly_savings = -100`, which even the
empty goal list's returned sum 0 exceeds. -/
theorem allocator_no_overcommit_counterexample :
    (calculateMonthlySavings czFin).monthly_savings = 1
    ∧ ((calculateGoalProgress czFin [cz1, cz2, cz3] wNow).goals.map
        GoalEntry.allocated_monthly).sum = 101 / 100
    ∧ ¬ (((calculateGoalProgress czFin [cz1, cz2, cz3] wNow).goals.map
        GoalEntry.allocated_monthly).sum ≤ (calculateMonthlySavings czFin).monthly_savings)
    ∧ (calculateMonthlySavings czNegFin).monthly_savings = -100
    ∧ ((calculateGoalProgress czNegFin [] wNow).goals.map
        GoalEntry.allocated_monthly).sum = 0
    ∧ ¬ (((calculateGoalProgress czNegFin [] wNow).goals.map
        GoalEntry.allocated_monthly).sum ≤ (calculateMonthlySavings czNegFin).monthly_savings) := by
  have hms : (calculateMonthlySavings czFin).monthly_savings = 1 := by
    rw [cms_monthly_savings]
    norm_num [czFin]
  have hmsneg : (calculateMonthlySavings czNegFin).monthly_savings = -100 := by
    rw [cms_monthly_savings]
    norm_num [czNegFin]
  have hsum : ((calculateGoalProgress czFin [cz1, cz2, cz3] wNow).goals.map
      GoalEntry.allocated_monthly).sum = 101 / 100 := by
    rw [calcGP_map_allocated, czAllocs]
    simp only [List.map_cons, List.map_nil]
    rw [czRound16, czRound23]
    norm_num
  refine ⟨hms, hsum, ?_, hmsneg, rfl, ?_⟩
  · rw [hsum, hms]
    norm_num
  · rw [hmsneg]
    show ¬ ((0 : ℚ) ≤ -100)
    norm_num

theorem c5Sort2 : sortGoals [wFunded, c5G] = [wFunded, c5G] := by decide

theorem c5Sort1 : sortGoals [c5G] = [c5G] := by decide

theorem c5IdealF : (computeGoalData wNow wFunded).ideal_monthly = 0 := by
  apply ideal_monthly_eq_zero
  rw [computeGoalData_amount,
    show parseAmountValue wFunded.target_amount = 50 from rfl,
    show currentSavedOf wFunded = 60 from rfl]
  norm_num

theorem c5IdealG : (computeGoalData wNow c5G).ideal_monthly = 10 := by
  rw [computeGoalData_ideal, computeGoalData_amount, computeGoalData_months_rule,
    show parseAmountValue c5G.target_amount = 120 from rfl,
    show currentSavedOf c5G = 0 from rfl,
    show monthsToDeadlineRule c5G.target_date wNow = 12 from rfl]
  norm_num

theorem c5Ideals2 : idealsOf [wFunded, c5G] wNow = [0, 10] := by
  rw [idealsOf, goalDataOf, c5Sort2]
  simp only [List.map_cons, List.map_nil]
  rw [c5IdealF, c5IdealG]

theorem c5Ideals1 : idealsOf [c5G] wNow = [10] := by
  rw [idealsOf, goalDataOf, c5Sort1]
  simp only [List.map_cons, List.map_nil]
  rw [c5IdealG]

theorem c5Allocs2 : allocationsOf czNegFin [wFunded, c5G] wNow = [-100, 0] := by
  rw [allocationsOf, c5Ideals2, czNegMS]
  norm_num [allocList]

theorem c5Allocs1 : allocationsOf czNegFin [c5G] wNow = [-100] := by
  rw [allocationsOf, c5Ideals1, czNegMS]
  norm_num [allocList]

/-- Claim C5, counterexample: at the reachable negative pool -100 (stored
salary -100, no budget) the already-funded goal `wFunded` receives
`allocated_monthly = min(remaining, 0) = -100`, not 0, and inserting it in
front of `c5G` changes `c5G`'s returned allocation from -100 to 0 — so
neither "allocated_monthly = 0" nor presence-invariance holds there. -/
theorem funded_goal_negative_pool_counterexample :
    parseAmountValue wFunded.target_amount ≤ currentSavedOf wFunded
    ∧ (calculateMonthlySavings czNegFin).monthly_savings = -100
    ∧ List.insertIdx 0 wFunded [c5G] = [wFunded, c5G]
    ∧ (calculateGoalProgress czNegFin [wFunded, c5G] wNow).goals.map
        GoalEntry.allocated_monthly = [-100, 0]
    ∧ (calculateGoalProgress czNegFin [c5G] wNow).goals.map
        GoalEntry.allocated_monthly = [-100]
    ∧ ((-100 : ℚ) ≠ 0) := by
  refine ⟨?_, czNegMS, rfl, ?_, ?_, by norm_num⟩
  · rw [show parseAmountValue wFunded.target_amount = 50 from rfl,
      show currentSavedOf wFunded = 60 from rfl]
    norm_num
  · rw [calcGP_map_allocated, c5Allocs2]
    simp only [List.map_cons, List.map_nil]
    rw [czRoundNeg100, round2_zero]
  · rw [calcGP_map_allocated, c5Allocs1]
    simp only [List.map_cons, List.map_nil]
    rw [czRoundNeg100]

/-- Claim C6, counterexample: the malformed goal `wBad` also has an unset
priority (exactly what `sync_goals` stores when the client omits it), and
inserting it beside the priority-1 goal `wG1` makes the computation raise
`TypeError` in `sorted()` instead of degrading gracefully — refuting both
"never raises because of bad goal data" and "does not change the allocations
of the other goals" as stated. -/
theorem malformed_goal_mixed_priorities_counterexample :
    parseAmountValue wBad.target_amount = 0
    ∧ wBad.priority = none
    ∧ wG1.priority = some 1
    ∧ mixedPriorities (List.insertIdx 0 wBad [wG1])
    ∧ calculateGoalProgressE wFin (List.insertIdx 0 wBad [wG1]) wNow
        = Except.error "TypeError: unorderable sort keys NoneType and int"
    ∧ calculateGoalProgressE wFin [wG1] wNow
        = Except.ok (calculateGoalProgress wFin [wG1] wNow) := by
  refine ⟨rfl, rfl, rfl, by decide, ?_, ?_⟩
  · simp only [calculateGoalProgressE]
    rw [if_pos (by decide)]
  · simp only [calculateGoalProgressE]
    rw [if_neg (by decide)]
